import Mathlib

/-
  Verification development for the "ultimate-goalie" 2D penalty-shot game.

  The per-frame simulation engine of src/components/GameCanvas.tsx (the
  frame-step function `update`, the release function `takeShot`, the
  outcome reporter `endRound`) and the difficulty curve `roundConfig` of
  App.tsx are shallowly embedded below.  Numbers are modelled as rationals;
  the square-root comparisons of the source are rendered by their exact
  squared equivalents (for r > 0, sqrt d < r iff d < r * r), and the
  square roots whose numeric value flows into the state (the two vector
  normalisations) are supplied through an explicit oracle parameter
  `sqrtQ`, constrained by hypotheses where a theorem needs its defining
  property.  The random draws of Math.random and the wall clock of
  Date.now are frame inputs.
-/

namespace Goalie

/-- StickPosition from src/types.ts. -/
inductive StickPosition where
  | UP
  | STRAIGHT
  | DOWN
deriving DecidableEq, Repr

/-- SaveType from src/types.ts. -/
inductive SaveType where
  | body
  | stick
  | glove
  | butterfly
  | miss
deriving DecidableEq, Repr

/-- One report to onRoundEnd: endRound(false) is a goal, endRound(true, t) a save. -/
inductive Outcome where
  | goal
  | save (t : SaveType)
deriving DecidableEq, Repr

/-- Vector2 from src/types.ts. -/
structure Vec where
  x : ℚ
  y : ℚ
deriving DecidableEq, Repr

/-- RoundConfig from src/types.ts. -/
structure RoundConfig where
  roundNumber : ℕ
  shooterSpeed : ℚ
  shotSpeed : ℚ
  aiIntelligence : ℚ
  curveFactor : ℚ
  jitter : ℚ
  isSlapShot : Bool
  hasPowerUp : Bool
  hasMagnet : Bool
deriving DecidableEq, Repr

-- Constants of GameCanvas.tsx.
def GOALIE_RADIUS : ℚ := 20
def PUCK_RADIUS : ℚ := 6
def CANVAS_WIDTH : ℚ := 800
def CANVAS_HEIGHT : ℚ := 600
def GOAL_TOP : ℚ := 170
def GOAL_BOTTOM : ℚ := 430
def GOAL_X : ℚ := 40

/-- The difficulty curve of App.tsx (useMemo roundConfig). -/
def roundConfig (currentRound : ℕ) : RoundConfig :=
  let rr : ℚ := ((currentRound : ℚ) - 1) / 9
  let shotSpeed0 : ℚ := 8 + rr * 12
  let shooterSpeed : ℚ := 2 + rr * 4
  let curveFactor0 : ℚ := if rr > 0.5 then (rr - 0.5) * 2 else 0
  let isSlapShot : Bool := currentRound == 4
  let hasPowerUp : Bool := currentRound == 9
  let hasMagnet : Bool := currentRound == 5
  let shotSpeed : ℚ := if isSlapShot then shotSpeed0 * 1.2 else shotSpeed0
  let curveFactor : ℚ := if currentRound == 7 then 1.5 else curveFactor0
  { roundNumber := currentRound
    shooterSpeed := shooterSpeed
    shotSpeed := shotSpeed
    aiIntelligence := 0.2 + rr * 0.8
    curveFactor := curveFactor
    jitter := rr * 0.8
    isSlapShot := isSlapShot
    hasPowerUp := hasPowerUp
    hasMagnet := hasMagnet }

/-- Clamp as Math.max lo (Math.min hi v). -/
def clampQ (lo hi v : ℚ) : ℚ := max lo (min hi v)

/-- Stance target of GameCanvas.tsx line 218: 1.0 when the stick is DOWN, else 0.0. -/
def stanceTarget (sp : StickPosition) : ℚ :=
  if sp = StickPosition.DOWN then 1.0 else 0.0

/-- Stance update of line 219: stanceLerp += (target - stanceLerp) * 0.15. -/
def stanceStep (sp : StickPosition) (s : ℚ) : ℚ :=
  s + (stanceTarget sp - s) * 0.15

/-- N applications of the stance update with a fixed stick selector. -/
def stanceIter (sp : StickPosition) : ℕ → ℚ → ℚ
  | 0, s => s
  | n + 1, s => stanceStep sp (stanceIter sp n s)

/-- Squared Euclidean distance; the source computes Math.sqrt of this. -/
def distSq (dx dy : ℚ) : ℚ := dx * dx + dy * dy

/-- Body-save zone, line 289: sqrt(dx*dx+dy*dy) < GOALIE_RADIUS + PUCK_RADIUS,
rendered by the exact squared comparison. -/
def inBodyZone (g p : Vec) : Bool :=
  decide (distSq (p.x - g.x) (p.y - g.y) < (GOALIE_RADIUS + PUCK_RADIUS) * (GOALIE_RADIUS + PUCK_RADIUS))

/-- Stick vertical offset, lines 295-297. -/
def stickYOffset (sp : StickPosition) : ℚ :=
  match sp with
  | StickPosition.UP => -35
  | StickPosition.DOWN => 35
  | StickPosition.STRAIGHT => 0

/-- Stick-save zone, lines 299-305: center (goalie.x + 20, goalie.y + offset),
radius 18 + PUCK_RADIUS, squared comparison. -/
def inStickZone (sp : StickPosition) (g p : Vec) : Bool :=
  decide (distSq (p.x - (g.x + 20)) (p.y - (g.y + stickYOffset sp)) < (18 + PUCK_RADIUS) * (18 + PUCK_RADIUS))

/-- Glove rectangle, lines 312-315 (tested only when the stick is UP). -/
def inGloveZone (g p : Vec) : Bool :=
  decide (p.x > g.x - 35 ∧ p.x < g.x + 35 ∧ p.y > g.y - 70 ∧ p.y < g.y - 15)

/-- Butterfly rectangle, lines 323-326 (tested only when the stick is DOWN). -/
def inButterflyZone (g p : Vec) : Bool :=
  decide (p.x > g.x - 60 ∧ p.x < g.x + 60 ∧ p.y > g.y + 10 ∧ p.y < g.y + 50)

/-- The collision section of update (lines 286-346), as the list of outcomes the
frame reports.  The four save branches end with an early return; the goal-line
branch and the out-of-bounds branch do not return, so both may fire in one frame
and each appends its own endRound report. -/
def resolveOutcomes (sp : StickPosition) (g p : Vec) : List Outcome :=
  if inBodyZone g p then [Outcome.save SaveType.body]
  else if inStickZone sp g p then [Outcome.save SaveType.stick]
  else if sp = StickPosition.UP ∧ inGloveZone g p then [Outcome.save SaveType.glove]
  else if sp = StickPosition.DOWN ∧ inButterflyZone g p then [Outcome.save SaveType.butterfly]
  else
    (if p.x < GOAL_X + 5 then
       (if GOAL_TOP < p.y ∧ p.y < GOAL_BOTTOM then [Outcome.goal]
        else [Outcome.save SaveType.miss])
     else [])
    ++ (if p.x < 0 ∨ p.y < 0 ∨ p.y > CANVAS_HEIGHT then [Outcome.save SaveType.miss] else [])

/-- The mutable refs of GameCanvas.tsx that the frame step reads and writes. -/
structure GameState where
  goaliePos : Vec
  stickPos : StickPosition
  stanceLerp : ℚ
  shooterPos : Vec
  puckPos : Vec
  puckVel : Vec
  puckTrail : List Vec
  hasShot : Bool
  roundEnded : Bool
  windUpStart : Option ℚ
  isDragging : Bool
  frameCount : ℕ
deriving DecidableEq, Repr

/-- Per-frame ambient inputs: which movement keys are held (either of the two
codes bound to each direction), the wall clock Date.now in ms, the sampled
value of Math.sin(Date.now() / 200), and the Math.random() draws in order of
use within one frame. -/
structure FrameInput where
  keyUp : Bool
  keyDown : Bool
  keyLeft : Bool
  keyRight : Bool
  now : ℚ
  sinTime : ℚ
  randJitter : ℚ
  randThreshold : ℚ
  randCorner : ℚ
  randScatter : ℚ
  randCurve : ℚ
deriving Repr

/-- Goalie movement, lines 222-233: keyboard integration when not dragging,
then clamping of x to [50, 140] and of y to [50, CANVAS_HEIGHT - 50]. -/
def goalieMove (cfg : RoundConfig) (inp : FrameInput) (st : GameState) : GameState :=
  if st.isDragging then st
  else
    let speed : ℚ := if cfg.hasPowerUp then 4 * 2 else 4
    let y1 : ℚ := if inp.keyUp then st.goaliePos.y - speed else st.goaliePos.y
    let y2 : ℚ := if inp.keyDown then y1 + speed else y1
    let x1 : ℚ := if inp.keyLeft then st.goaliePos.x - speed else st.goaliePos.x
    let x2 : ℚ := if inp.keyRight then x1 + speed else x1
    { st with goaliePos := ⟨clampQ 50 140 x2, clampQ 50 (CANVAS_HEIGHT - 50) y2⟩ }

/-- Target y of takeShot, lines 355-362: above intelligence 0.5 the goal-mouth
center biased toward a randomly chosen post, otherwise the center plus a
uniform scatter of Math.random() * 100 - 50. -/
def takeShotTargetY (cfg : RoundConfig) (randCorner randScatter : ℚ) : ℚ :=
  let goalCenter : ℚ := (GOAL_TOP + GOAL_BOTTOM) / 2
  if cfg.aiIntelligence > 0.5 then
    let corner : ℚ := if randCorner > 0.5 then GOAL_TOP + 15 else GOAL_BOTTOM - 15
    goalCenter + (corner - goalCenter) * cfg.aiIntelligence
  else
    goalCenter + (randScatter * 100 - 50)

/-- Released-puck velocity, lines 364-372: the vector from the puck to
(GOAL_X, targetY), divided by its Euclidean length (the sqrtQ oracle applied
to the squared length) and scaled by the shot speed. -/
def takeShotVel (cfg : RoundConfig) (p : Vec) (targetY : ℚ) (sqrtQ : ℚ → ℚ) : Vec :=
  let dx : ℚ := GOAL_X - p.x
  let dy : ℚ := targetY - p.y
  let dist : ℚ := sqrtQ (distSq dx dy)
  ⟨dx / dist * cfg.shotSpeed, dy / dist * cfg.shotSpeed⟩

/-- takeShot, lines 352-374: set hasShot and assign the puck velocity. -/
def takeShot (cfg : RoundConfig) (inp : FrameInput) (sqrtQ : ℚ → ℚ) (st : GameState) : GameState :=
  { st with
      hasShot := true
      puckVel := takeShotVel cfg st.puckPos (takeShotTargetY cfg inp.randCorner inp.randScatter) sqrtQ }

/-- Shooter AI, lines 236-260: advance (with sine sway and jitter) unless
winding up, attach the puck 20 units ahead of the shooter, then test the
freshly drawn shoot threshold and either start the wind-up, release after more
than 500 ms of wind-up, or release immediately. -/
def shooterPhase (cfg : RoundConfig) (inp : FrameInput) (sqrtQ : ℚ → ℚ) (st : GameState) : GameState :=
  let st :=
    if st.windUpStart = none then
      let sy : ℚ := st.shooterPos.y + inp.sinTime * cfg.shooterSpeed * 0.5 + (inp.randJitter - 0.5) * cfg.jitter * 2
      { st with shooterPos := ⟨st.shooterPos.x - cfg.shooterSpeed, clampQ 50 (CANVAS_HEIGHT - 50) sy⟩ }
    else st
  let st := { st with puckPos := ⟨st.shooterPos.x - 20, st.shooterPos.y⟩ }
  let shootThreshold : ℚ := 250 + inp.randThreshold * 100
  if st.shooterPos.x < shootThreshold then
    if cfg.isSlapShot ∧ st.windUpStart = none then
      { st with windUpStart := some inp.now }
    else if cfg.isSlapShot ∧ st.windUpStart ≠ none then
      (if inp.now - st.windUpStart.getD 0 > 500 then takeShot cfg inp sqrtQ st else st)
    else takeShot cfg inp sqrtQ st
  else st

/-- Magnet nudge, lines 263-272.  The source tests dist < 100 with
dist = sqrt(dx*dx+dy*dy), rendered exactly as distSq < 100 * 100, and tests
-0.75 pi < atan2(dy, dx) < 0.75 pi, which holds exactly when the direction is
within 135 degrees of the positive x axis: 0 <= dx, or dx * dx < dy * dy. -/
def applyMagnet (cfg : RoundConfig) (g p v : Vec) (sqrtQ : ℚ → ℚ) : Vec :=
  if cfg.hasMagnet then
    let dx : ℚ := g.x - p.x
    let dy : ℚ := g.y - p.y
    if distSq dx dy < 100 * 100 ∧ (0 ≤ dx ∨ dx * dx < dy * dy) then
      ⟨v.x + dx / sqrtQ (distSq dx dy) * 2, v.y + dy / sqrtQ (distSq dx dy) * 2⟩
    else v
  else v

/-- Puck physics after release, lines 262-284: magnet nudge, position
integration, stochastic curve drift on the vertical velocity, trail append
capped at 15 by dropping the oldest entry. -/
def physicsPhase (cfg : RoundConfig) (inp : FrameInput) (sqrtQ : ℚ → ℚ) (st : GameState) : GameState :=
  let st := { st with puckVel := applyMagnet cfg st.goaliePos st.puckPos st.puckVel sqrtQ }
  let st := { st with puckPos := ⟨st.puckPos.x + st.puckVel.x, st.puckPos.y + st.puckVel.y⟩ }
  let st :=
    if cfg.curveFactor ≠ 0 then
      { st with puckVel := ⟨st.puckVel.x, st.puckVel.y + (inp.randCurve - 0.5) * cfg.curveFactor * 0.4⟩ }
    else st
  let trail := st.puckTrail ++ [st.puckPos]
  { st with puckTrail := if trail.length > 15 then trail.drop 1 else trail }

/-- The frame step `update`, lines 212-350: early return when the round has
ended, stance interpolation, goalie movement, the shooter phase before release
or the physics phase after, then the collision section.  The returned list is
the sequence of endRound reports this invocation makes; roundEnded is set when
it is nonempty. -/
def update (cfg : RoundConfig) (inp : FrameInput) (sqrtQ : ℚ → ℚ) (st : GameState) : GameState × List Outcome :=
  if st.roundEnded then (st, [])
  else
    let st := { st with frameCount := st.frameCount + 1 }
    let st := { st with stanceLerp := stanceStep st.stickPos st.stanceLerp }
    let st := goalieMove cfg inp st
    let st := if st.hasShot then physicsPhase cfg inp sqrtQ st else shooterPhase cfg inp sqrtQ st
    let outs := resolveOutcomes st.stickPos st.goaliePos st.puckPos
    ({ st with roundEnded := !outs.isEmpty }, outs)

/-- A neutral frame input: no keys held, clock and draws at zero. -/
def inpZero : FrameInput :=
  { keyUp := false, keyDown := false, keyLeft := false, keyRight := false,
    now := 0, sinTime := 0, randJitter := 0, randThreshold := 0,
    randCorner := 0, randScatter := 0, randCurve := 0 }

/-- A released-puck state with the puck about to be resolved at (44, -10):
past the goal line x < GOAL_X + 5 and above the canvas (y < 0). -/
def stGoalLine : GameState :=
  { goaliePos := ⟨100, 300⟩, stickPos := StickPosition.STRAIGHT, stanceLerp := 0,
    shooterPos := ⟨700, 300⟩, puckPos := ⟨44, -10⟩, puckVel := ⟨0, 0⟩,
    puckTrail := [], hasShot := true, roundEnded := false,
    windUpStart := none, isDragging := false, frameCount := 0 }

/-- A slap-shot round state in mid wind-up: the wind-up began at t = 1000 with
the shooter frozen at x = 260. -/
def stWindUp : GameState :=
  { goaliePos := ⟨100, 300⟩, stickPos := StickPosition.STRAIGHT, stanceLerp := 0,
    shooterPos := ⟨260, 300⟩, puckPos := ⟨240, 300⟩, puckVel := ⟨0, 0⟩,
    puckTrail := [], hasShot := false, roundEnded := false,
    windUpStart := some 1000, isDragging := false, frameCount := 10 }

/-- A frame input 600 ms after that wind-up began, whose threshold draw is 0,
so the freshly drawn shoot threshold is 250. -/
def inpLate : FrameInput :=
  { keyUp := false, keyDown := false, keyLeft := false, keyRight := false,
    now := 1600, sinTime := 0, randJitter := 0, randThreshold := 0,
    randCorner := 0, randScatter := 0, randCurve := 0 }

/-- An already-resolved state, used to exercise the frozen-state invariant. -/
def stEnded : GameState :=
  { goaliePos := ⟨120, 280⟩, stickPos := StickPosition.DOWN, stanceLerp := 0.3,
    shooterPos := ⟨400, 310⟩, puckPos := ⟨118, 290⟩, puckVel := ⟨-9, 1⟩,
    puckTrail := [⟨130, 288⟩], hasShot := true, roundEnded := true,
    windUpStart := none, isDragging := false, frameCount := 42 }

/-- A square-root oracle that is exact on the one radicand the C3 witness
uses: sqrt 25 = 5. -/
def sqrtAt25 : ℚ → ℚ := fun q => if q = 25 then 5 else 0

/-- Goalie movement touches only the goalie position. -/
lemma goalieMove_fields (cfg : RoundConfig) (inp : FrameInput) (st : GameState) :
    (goalieMove cfg inp st).stickPos = st.stickPos ∧
    (goalieMove cfg inp st).stanceLerp = st.stanceLerp ∧
    (goalieMove cfg inp st).shooterPos = st.shooterPos ∧
    (goalieMove cfg inp st).puckPos = st.puckPos ∧
    (goalieMove cfg inp st).puckVel = st.puckVel ∧
    (goalieMove cfg inp st).puckTrail = st.puckTrail ∧
    (goalieMove cfg inp st).hasShot = st.hasShot ∧
    (goalieMove cfg inp st).roundEnded = st.roundEnded ∧
    (goalieMove cfg inp st).windUpStart = st.windUpStart := by
  unfold goalieMove
  split <;> simp

/-- Closed-form distance to the target after N frames with the stick DOWN,
starting from stance 0. -/
lemma stanceIter_down_eq (N : ℕ) :
    1 - stanceIter StickPosition.DOWN N 0 = (0.85 : ℚ) ^ N := by
  induction N with
  | zero => norm_num [stanceIter]
  | succ n ih =>
    have hstep : stanceIter StickPosition.DOWN (n + 1) 0 =
        stanceStep StickPosition.DOWN (stanceIter StickPosition.DOWN n 0) := rfl
    rw [hstep, pow_succ]
    unfold stanceStep stanceTarget
    rw [if_pos rfl]
    linear_combination (0.85 : ℚ) * ih

/-- Without the magnet modifier, the physics phase changes the velocity only
through the curve term. -/
lemma physicsPhase_puckVel_no_magnet (cfg : RoundConfig) (inp : FrameInput)
    (sqrtQ : ℚ → ℚ) (st : GameState) (hm : cfg.hasMagnet = false) :
    (physicsPhase cfg inp sqrtQ st).puckVel =
      (if cfg.curveFactor ≠ 0 then
        (⟨st.puckVel.x, st.puckVel.y + (inp.randCurve - 0.5) * cfg.curveFactor * 0.4⟩ : Vec)
      else st.puckVel) := by
  unfold physicsPhase applyMagnet
  rw [if_neg (by simp [hm])]
  split <;> rfl

/-- The velocity produced by the shooter phase depends only on the shooter
position, the wind-up timestamp, and the incoming velocity. -/
lemma shooterPhase_puckVel_ext (cfg : RoundConfig) (inp : FrameInput) (sqrtQ : ℚ → ℚ)
    (s1 s2 : GameState) (h1 : s1.shooterPos = s2.shooterPos)
    (h2 : s1.windUpStart = s2.windUpStart) (h4 : s1.puckVel = s2.puckVel) :
    (shooterPhase cfg inp sqrtQ s1).puckVel = (shooterPhase cfg inp sqrtQ s2).puckVel := by
  unfold shooterPhase takeShot takeShotVel takeShotTargetY
  dsimp only
  simp only [apply_ite GameState.puckVel, apply_ite GameState.shooterPos,
    apply_ite GameState.windUpStart, apply_ite GameState.puckPos,
    apply_ite Vec.x, apply_ite Vec.y, ite_self, h1, h2, h4]

/-- The frame step on an unresolved round, written as its three phases. -/
lemma update_fst_eq (cfg : RoundConfig) (inp : FrameInput) (sqrtQ : ℚ → ℚ)
    (u : GameState) (hu : u.roundEnded = false) :
    (update cfg inp sqrtQ u).1 =
      (let s := goalieMove cfg inp
        { u with frameCount := u.frameCount + 1,
                 stanceLerp := stanceStep u.stickPos u.stanceLerp };
       let s2 := if s.hasShot then physicsPhase cfg inp sqrtQ s else shooterPhase cfg inp sqrtQ s;
       { s2 with
          roundEnded := !(resolveOutcomes s2.stickPos s2.goaliePos s2.puckPos).isEmpty }) := by
  unfold update
  rw [if_neg (by simp [hu])]

/-- C5: for every round number from 1 to 10 with r = (round - 1) / 9, the
derived RoundConfig satisfies shooterSpeed = 2 + 4 r, shotSpeed = 8 + 12 r
multiplied by 1.2 exactly in round 4, aiIntelligence = 0.2 + 0.8 r,
jitter = 0.8 r, curveFactor 0 in rounds 1-5, (r - 0.5) * 2 in round 6 and
rounds 8-10, exactly 1.5 in round 7, and the slap-shot, power-up and magnet
flags set exactly in rounds 4, 9 and 5. -/
theorem C5_difficulty_curve (n : ℕ) (h1 : 1 ≤ n) (h2 : n ≤ 10) :
    (roundConfig n).shooterSpeed = 2 + 4 * (((n : ℚ) - 1) / 9) ∧
    (roundConfig n).shotSpeed =
      (8 + 12 * (((n : ℚ) - 1) / 9)) * (if n = 4 then 1.2 else 1) ∧
    (roundConfig n).aiIntelligence = 0.2 + 0.8 * (((n : ℚ) - 1) / 9) ∧
    (roundConfig n).jitter = 0.8 * (((n : ℚ) - 1) / 9) ∧
    (roundConfig n).curveFactor =
      (if n = 7 then 1.5
       else if 6 ≤ n then ((((n : ℚ) - 1) / 9) - 0.5) * 2 else 0) ∧
    ((roundConfig n).isSlapShot = true ↔ n = 4) ∧
    ((roundConfig n).hasPowerUp = true ↔ n = 9) ∧
    ((roundConfig n).hasMagnet = true ↔ n = 5) := by
  interval_cases n <;> norm_num [roundConfig]

/-- Witness for C5 at round 4: the hypotheses hold and the slap-shot
multiplier applies to the shot speed. -/
theorem C5_difficulty_curve_witness :
    (roundConfig 4).shotSpeed =
      (8 + 12 * ((((4 : ℕ) : ℚ) - 1) / 9)) * (if (4 : ℕ) = 4 then 1.2 else 1) :=
  (C5_difficulty_curve 4 (by norm_num) (by norm_num)).2.1

/-- C8: the stance-lerp step keeps values in [0, 1], moves monotonically
toward its target without overshoot, and after N frames with the stick DOWN
starting from 0 the distance to 1 is at most (1 - 0.15) ^ N. -/
theorem C8_stance_lerp (sp : StickPosition) (s : ℚ) (N : ℕ)
    (h0 : 0 ≤ s) (h1 : s ≤ 1) :
    (0 ≤ stanceStep sp s ∧ stanceStep sp s ≤ 1) ∧
    (s ≤ stanceTarget sp → s ≤ stanceStep sp s ∧ stanceStep sp s ≤ stanceTarget sp) ∧
    (stanceTarget sp ≤ s → stanceTarget sp ≤ stanceStep sp s ∧ stanceStep sp s ≤ s) ∧
    |stanceIter StickPosition.DOWN N 0 - 1| ≤ (1 - 0.15 : ℚ) ^ N := by
  have ht : stanceTarget sp = 0 ∨ stanceTarget sp = 1 := by
    unfold stanceTarget; split <;> norm_num
  have hiter := stanceIter_down_eq N
  have hpow : (0 : ℚ) ≤ (0.85 : ℚ) ^ N := by positivity
  refine ⟨?_, ?_, ?_, ?_⟩
  · unfold stanceStep
    rcases ht with h | h <;> rw [h] <;> constructor <;> linarith
  · intro hle; unfold stanceStep at *; constructor <;> nlinarith
  · intro hle; unfold stanceStep at *; constructor <;> nlinarith
  · have heq : stanceIter StickPosition.DOWN N 0 - 1 = -((0.85 : ℚ) ^ N) := by
      linarith
    rw [heq, abs_neg, abs_of_nonneg hpow]
    norm_num

/-- Witness for C8 at s = 1/2, stick DOWN, N = 3. -/
theorem C8_stance_lerp_witness :
    0 ≤ stanceStep StickPosition.DOWN (1/2) ∧ stanceStep StickPosition.DOWN (1/2) ≤ 1 :=
  (C8_stance_lerp StickPosition.DOWN (1/2) 3 (by norm_num) (by norm_num)).1

/-- C9: once the round-ended flag is set, the frame step leaves the whole
state unchanged and reports nothing. -/
theorem C9_frozen_after_resolution (cfg : RoundConfig) (inp : FrameInput)
    (sqrtQ : ℚ → ℚ) (st : GameState) (h : st.roundEnded = true) :
    update cfg inp sqrtQ st = (st, []) := by
  unfold update
  rw [if_pos h]

/-- Witness for C9 on a concrete resolved state. -/
theorem C9_frozen_after_resolution_witness :
    update (roundConfig 3) inpZero (fun _ => 0) stEnded = (stEnded, []) :=
  C9_frozen_after_resolution (roundConfig 3) inpZero (fun _ => 0) stEnded rfl

/-- C10: when the two points of a normalisation do not coincide, the squared
distance is strictly positive, so any nonnegative square root of it is
strictly positive and in particular a nonzero divisor. -/
theorem C10_normalization_well_defined (dx dy d : ℚ)
    (h : dx ≠ 0 ∨ dy ≠ 0) (hd0 : 0 ≤ d) (hd : d * d = distSq dx dy) :
    0 < distSq dx dy ∧ 0 < d ∧ d ≠ 0 := by
  have hx : 0 ≤ dx * dx := mul_self_nonneg dx
  have hy : 0 ≤ dy * dy := mul_self_nonneg dy
  have hpos : 0 < distSq dx dy := by
    unfold distSq
    rcases h with h | h
    · have : 0 < dx * dx := mul_self_pos.mpr h
      linarith
    · have : 0 < dy * dy := mul_self_pos.mpr h
      linarith
  have hdne : d ≠ 0 := by
    intro h0
    rw [h0] at hd
    simp at hd
    rw [← hd] at hpos
    exact lt_irrefl 0 hpos
  exact ⟨hpos, lt_of_le_of_ne hd0 (Ne.symm hdne), hdne⟩

/-- Witness for C10 at dx = 3, dy = 4, d = 5. -/
theorem C10_normalization_well_defined_witness :
    0 < distSq 3 4 ∧ 0 < (5 : ℚ) ∧ (5 : ℚ) ≠ 0 :=
  C10_normalization_well_defined 3 4 5 (Or.inl (by norm_num)) (by norm_num)
    (by norm_num [distSq])

/-- C2 counterexample: with the puck at (-5, 300) and no save zone matching,
the goal-line zone is the first match and reports a goal, yet the same
resolution pass then also reports an out-of-bounds miss: the first matching
zone is not terminal, refuting the terminality clause of the claim. -/
theorem C2_terminality_counterexample :
    resolveOutcomes StickPosition.STRAIGHT ⟨100, 300⟩ ⟨-5, 300⟩ =
      [Outcome.goal, Outcome.save SaveType.miss] := by
  norm_num [resolveOutcomes, inBodyZone, inStickZone, inGloveZone, inButterflyZone,
    distSq, stickYOffset, GOAL_X, GOAL_TOP, GOAL_BOTTOM, CANVAS_HEIGHT,
    GOALIE_RADIUS, PUCK_RADIUS]

/-- C2 (amended): collision resolution tests, in this fixed order, the body
zone, the stick zone, the glove zone (only when the stick is UP) and the
butterfly zone (only when the stick is DOWN), and each of these four save
zones is terminal, reporting that single outcome — in particular a puck inside
both the body-save and stick-save zones reports the single body save.  The
goal-line zone that follows is NOT terminal: when the puck has also left the
canvas, the out-of-bounds miss is reported in addition in the same pass (here
stated for a goal-line crossing above the canvas, which reports miss twice). -/
theorem C2_collision_priority (sp : StickPosition) (g p : Vec) :
    (inBodyZone g p = true → inStickZone sp g p = true →
      resolveOutcomes sp g p = [Outcome.save SaveType.body]) ∧
    (inBodyZone g p = true → resolveOutcomes sp g p = [Outcome.save SaveType.body]) ∧
    (inBodyZone g p = false → inStickZone sp g p = true →
      resolveOutcomes sp g p = [Outcome.save SaveType.stick]) ∧
    (inBodyZone g p = false → inStickZone sp g p = false →
      sp = StickPosition.UP → inGloveZone g p = true →
      resolveOutcomes sp g p = [Outcome.save SaveType.glove]) ∧
    (inBodyZone g p = false → inStickZone sp g p = false →
      sp = StickPosition.DOWN → inButterflyZone g p = true →
      resolveOutcomes sp g p = [Outcome.save SaveType.butterfly]) ∧
    (inBodyZone g p = false → inStickZone sp g p = false →
      ¬(sp = StickPosition.UP ∧ inGloveZone g p = true) →
      ¬(sp = StickPosition.DOWN ∧ inButterflyZone g p = true) →
      p.x < GOAL_X + 5 → p.y < 0 →
      resolveOutcomes sp g p = [Outcome.save SaveType.miss, Outcome.save SaveType.miss]) := by
  refine ⟨?_, ?_, ?_, ?_, ?_, ?_⟩
  · intro hb _
    unfold resolveOutcomes
    rw [if_pos hb]
  · intro hb
    unfold resolveOutcomes
    rw [if_pos hb]
  · intro hb hs
    unfold resolveOutcomes
    rw [if_neg (by simp [hb]), if_pos hs]
  · intro hb hs hup hg
    unfold resolveOutcomes
    rw [if_neg (by simp [hb]), if_neg (by simp [hs]), if_pos ⟨hup, hg⟩]
  · intro hb hs hdn hbf
    unfold resolveOutcomes
    rw [if_neg (by simp [hb]), if_neg (by simp [hs]),
      if_neg (by simp [hdn]), if_pos ⟨hdn, hbf⟩]
  · intro hb hs hg hbf hx hy
    have hin : ¬(GOAL_TOP < p.y ∧ p.y < GOAL_BOTTOM) := by
      simp only [GOAL_TOP, GOAL_BOTTOM]
      rintro ⟨h1, _⟩
      linarith
    unfold resolveOutcomes
    rw [if_neg (by simp [hb]), if_neg (by simp [hs]), if_neg (by simpa using hg),
      if_neg (by simpa using hbf), if_pos hx, if_neg hin,
      if_pos (Or.inr (Or.inl hy))]
    rfl

/-- Witness for C2: goalie at (100, 300), stick STRAIGHT; the puck at
(110, 300) is in both the body and stick zones and reports the single body
save; the puck at (140, 300) is in the stick zone only and reports the single
stick save. -/
theorem C2_collision_priority_witness :
    resolveOutcomes StickPosition.STRAIGHT ⟨100, 300⟩ ⟨110, 300⟩ =
      [Outcome.save SaveType.body] ∧
    resolveOutcomes StickPosition.STRAIGHT ⟨100, 300⟩ ⟨140, 300⟩ =
      [Outcome.save SaveType.stick] :=
  ⟨(C2_collision_priority StickPosition.STRAIGHT ⟨100, 300⟩ ⟨110, 300⟩).1
      (by norm_num [inBodyZone, distSq, GOALIE_RADIUS, PUCK_RADIUS])
      (by norm_num [inStickZone, distSq, stickYOffset, PUCK_RADIUS]),
    (C2_collision_priority StickPosition.STRAIGHT ⟨100, 300⟩ ⟨140, 300⟩).2.2.1
      (by norm_num [inBodyZone, distSq, GOALIE_RADIUS, PUCK_RADIUS])
      (by norm_num [inStickZone, distSq, stickYOffset, PUCK_RADIUS])⟩

/-- C4: when the puck reaches the goal line (x < GOAL_X + 5, x still on the
canvas) and no save zone matched, the outcome is a goal exactly when
GOAL_TOP < y < GOAL_BOTTOM strictly; at y exactly GOAL_TOP or GOAL_BOTTOM the
outcome is a miss save, not a goal. -/
theorem C4_goal_strict_interior (sp : StickPosition) (g p : Vec)
    (h1 : inBodyZone g p = false) (h2 : inStickZone sp g p = false)
    (h3 : ¬(sp = StickPosition.UP ∧ inGloveZone g p = true))
    (h4 : ¬(sp = StickPosition.DOWN ∧ inButterflyZone g p = true))
    (h5 : p.x < GOAL_X + 5) (h6 : 0 ≤ p.x) :
    (resolveOutcomes sp g p = [Outcome.goal] ↔ (GOAL_TOP < p.y ∧ p.y < GOAL_BOTTOM)) ∧
    ((p.y = GOAL_TOP ∨ p.y = GOAL_BOTTOM) →
      resolveOutcomes sp g p = [Outcome.save SaveType.miss]) := by
  have hx : ¬ p.x < 0 := not_lt.mpr h6
  unfold resolveOutcomes
  rw [if_neg (by simp [h1]), if_neg (by simp [h2]), if_neg (by simpa using h3),
    if_neg (by simpa using h4), if_pos h5]
  constructor
  · by_cases hy : GOAL_TOP < p.y ∧ p.y < GOAL_BOTTOM
    · rw [if_pos hy]
      have hoob : ¬ (p.x < 0 ∨ p.y < 0 ∨ p.y > CANVAS_HEIGHT) := by
        push_neg
        refine ⟨h6, ?_, ?_⟩
        · have := hy.1; unfold GOAL_TOP at this; linarith
        · have := hy.2; unfold GOAL_BOTTOM CANVAS_HEIGHT at *; linarith
      rw [if_neg hoob]
      simp [hy]
    · rw [if_neg hy]
      constructor
      · intro habs
        exfalso
        by_cases hoob : p.x < 0 ∨ p.y < 0 ∨ p.y > CANVAS_HEIGHT
        · rw [if_pos hoob] at habs
          exact absurd habs (by simp)
        · rw [if_neg hoob] at habs
          exact absurd habs (by simp)
      · intro habs; exact absurd habs hy
  · intro hy
    have hy0 : ¬(GOAL_TOP < p.y ∧ p.y < GOAL_BOTTOM) := by
      rcases hy with h | h <;> rw [h] <;> simp
    have hoob : ¬ (p.x < 0 ∨ p.y < 0 ∨ p.y > CANVAS_HEIGHT) := by
      push_neg
      rcases hy with h | h <;>
        rw [h] <;> refine ⟨h6, by norm_num [GOAL_TOP, GOAL_BOTTOM], by
          norm_num [GOAL_TOP, GOAL_BOTTOM, CANVAS_HEIGHT]⟩
    rw [if_neg hy0, if_neg hoob]
    simp

/-- Witness for C4: stick STRAIGHT, goalie at (100, 300), puck exactly at
(44, GOAL_TOP): classified as a miss save. -/
theorem C4_goal_strict_interior_witness :
    resolveOutcomes StickPosition.STRAIGHT ⟨100, 300⟩ ⟨44, 170⟩ =
      [Outcome.save SaveType.miss] :=
  (C4_goal_strict_interior StickPosition.STRAIGHT ⟨100, 300⟩ ⟨44, 170⟩
      (by norm_num [inBodyZone, distSq, GOALIE_RADIUS, PUCK_RADIUS])
      (by norm_num [inStickZone, distSq, stickYOffset, PUCK_RADIUS])
      (by simp)
      (by simp)
      (by norm_num [GOAL_X])
      (by norm_num)).2
    (Or.inl (by norm_num [GOAL_TOP]))

/-- C7: the magnet impulse is added exactly when the magnet modifier is on,
the puck is within 100 units of the goalie, and the puck-to-goalie direction
lies inside the open 135-degree cone; with the modifier off the magnet step is
the identity and the puck velocity produced by a frame step does not depend on
the goalie position at all. -/
theorem C7_magnet_condition (cfg : RoundConfig) (g p v g2 : Vec) (sqrtQ : ℚ → ℚ)
    (inp : FrameInput) (st : GameState) :
    (cfg.hasMagnet = false → applyMagnet cfg g p v sqrtQ = v) ∧
    (¬(distSq (g.x - p.x) (g.y - p.y) < 100 * 100 ∧
        (0 ≤ g.x - p.x ∨ (g.x - p.x) * (g.x - p.x) < (g.y - p.y) * (g.y - p.y))) →
      applyMagnet cfg g p v sqrtQ = v) ∧
    (cfg.hasMagnet = true →
      distSq (g.x - p.x) (g.y - p.y) < 100 * 100 →
      (0 ≤ g.x - p.x ∨ (g.x - p.x) * (g.x - p.x) < (g.y - p.y) * (g.y - p.y)) →
      applyMagnet cfg g p v sqrtQ =
        ⟨v.x + (g.x - p.x) / sqrtQ (distSq (g.x - p.x) (g.y - p.y)) * 2,
         v.y + (g.y - p.y) / sqrtQ (distSq (g.x - p.x) (g.y - p.y)) * 2⟩) ∧
    (cfg.hasMagnet = false →
      (update cfg inp sqrtQ st).1.puckVel =
        (update cfg inp sqrtQ { st with goaliePos := g2 }).1.puckVel) := by
  refine ⟨?_, ?_, ?_, ?_⟩
  · intro hm
    unfold applyMagnet
    rw [if_neg (by simp [hm])]
  · intro hc
    unfold applyMagnet
    by_cases hm : cfg.hasMagnet = true
    · rw [if_pos hm, if_neg hc]
    · rw [if_neg hm]
  · intro hm hd hcone
    unfold applyMagnet
    rw [if_pos hm, if_pos ⟨hd, hcone⟩]
  · intro hm
    by_cases hE : st.roundEnded = true
    · simp [update, hE]
    · have hE' : st.roundEnded = false := by
        simpa using hE
      have expand : ∀ u : GameState, u.roundEnded = false →
          (update cfg inp sqrtQ u).1.puckVel =
            (if (goalieMove cfg inp
                  { u with frameCount := u.frameCount + 1,
                           stanceLerp := stanceStep u.stickPos u.stanceLerp }).hasShot then
               physicsPhase cfg inp sqrtQ (goalieMove cfg inp
                  { u with frameCount := u.frameCount + 1,
                           stanceLerp := stanceStep u.stickPos u.stanceLerp })
             else
               shooterPhase cfg inp sqrtQ (goalieMove cfg inp
                  { u with frameCount := u.frameCount + 1,
                           stanceLerp := stanceStep u.stickPos u.stanceLerp })).puckVel := by
        intro u hu
        unfold update
        rw [if_neg (by simp [hu])]
      rw [expand st hE', expand _ (by simpa using hE')]
      have hgf1 := goalieMove_fields cfg inp
        { st with frameCount := st.frameCount + 1,
                  stanceLerp := stanceStep st.stickPos st.stanceLerp }
      have hgf2 := goalieMove_fields cfg inp
        { { st with goaliePos := g2 } with
            frameCount := { st with goaliePos := g2 }.frameCount + 1,
            stanceLerp := stanceStep { st with goaliePos := g2 }.stickPos
              { st with goaliePos := g2 }.stanceLerp }
      simp only [apply_ite GameState.puckVel]
      rw [hgf1.2.2.2.2.2.2.1, hgf2.2.2.2.2.2.2.1]
      dsimp only
      by_cases hS : st.hasShot = true
      · rw [if_pos hS, if_pos hS,
          physicsPhase_puckVel_no_magnet cfg inp sqrtQ _ hm,
          physicsPhase_puckVel_no_magnet cfg inp sqrtQ _ hm,
          hgf1.2.2.2.2.1, hgf2.2.2.2.2.1]
      · rw [if_neg hS, if_neg hS]
        apply shooterPhase_puckVel_ext
        · rw [hgf1.2.2.1, hgf2.2.2.1]
        · rw [hgf1.2.2.2.2.2.2.2.2, hgf2.2.2.2.2.2.2.2.2]
        · rw [hgf1.2.2.2.2.1, hgf2.2.2.2.2.1]

/-- Witness for C7: round 1 (magnet off) leaves the velocity untouched, round 5
(magnet on) with the puck 40 units left of the goalie adds the impulse, and the
frame-step velocity in round 1 is goalie independent at a concrete state. -/
theorem C7_magnet_condition_witness :
    applyMagnet (roundConfig 1) ⟨100, 300⟩ ⟨60, 300⟩ ⟨1, 2⟩ (fun _ => 40) = ⟨1, 2⟩ ∧
    applyMagnet (roundConfig 5) ⟨100, 300⟩ ⟨60, 300⟩ ⟨1, 2⟩ (fun _ => 40) = ⟨3, 2⟩ ∧
    (update (roundConfig 1) inpZero (fun _ => 40) stGoalLine).1.puckVel =
      (update (roundConfig 1) inpZero (fun _ => 40)
        { stGoalLine with goaliePos := ⟨70, 250⟩ }).1.puckVel := by
  refine ⟨?_, ?_, ?_⟩
  · exact (C7_magnet_condition (roundConfig 1) ⟨100, 300⟩ ⟨60, 300⟩ ⟨1, 2⟩ ⟨0, 0⟩
      (fun _ => 40) inpZero stGoalLine).1 rfl
  · have h := (C7_magnet_condition (roundConfig 5) ⟨100, 300⟩ ⟨60, 300⟩ ⟨1, 2⟩ ⟨0, 0⟩
      (fun _ => 40) inpZero stGoalLine).2.2.1 rfl
      (by norm_num [distSq]) (by norm_num)
    rw [h]
    norm_num [distSq]
  · exact (C7_magnet_condition (roundConfig 1) ⟨0, 0⟩ ⟨0, 0⟩ ⟨0, 0⟩ ⟨70, 250⟩
      (fun _ => 40) inpZero stGoalLine).2.2.2 rfl

/-- C3 counterexample: in round 1 the intelligence scalar is 0.2, and with the
scatter draw 1/2 the target y is exactly the goal-mouth center 300, which
differs from the center biased toward either post by a 0.2-proportional
amount (277 for the top post, 323 for the bottom post).  So the claimed
post-bias formula does not hold for every intelligence value in [0.2, 1]. -/
theorem C3_target_bias_counterexample :
    (roundConfig 1).aiIntelligence = 0.2 ∧
    takeShotTargetY (roundConfig 1) 0 (1/2) = 300 ∧
    (300 : ℚ) ≠ (GOAL_TOP + GOAL_BOTTOM) / 2 +
      ((GOAL_TOP + 15) - (GOAL_TOP + GOAL_BOTTOM) / 2) * (roundConfig 1).aiIntelligence ∧
    (300 : ℚ) ≠ (GOAL_TOP + GOAL_BOTTOM) / 2 +
      ((GOAL_BOTTOM - 15) - (GOAL_TOP + GOAL_BOTTOM) / 2) * (roundConfig 1).aiIntelligence := by
  norm_num [takeShotTargetY, roundConfig, GOAL_TOP, GOAL_BOTTOM]

/-- C3 (amended): the released puck velocity is the unit vector from the puck
to the target scaled by the shot speed, so its speed equals the shot speed
exactly; the target y is the goal-mouth center biased toward one randomly
chosen post proportionally to the intelligence scalar when that scalar exceeds
0.5, and the center plus a uniform scatter in [-50, 50) independent of the
scalar otherwise. -/
theorem C3_release_velocity (cfg : RoundConfig) (p : Vec) (rc rs : ℚ) (sqrtQ : ℚ → ℚ)
    (hsq : sqrtQ (distSq (GOAL_X - p.x) (takeShotTargetY cfg rc rs - p.y)) *
        sqrtQ (distSq (GOAL_X - p.x) (takeShotTargetY cfg rc rs - p.y)) =
        distSq (GOAL_X - p.x) (takeShotTargetY cfg rc rs - p.y))
    (hne : sqrtQ (distSq (GOAL_X - p.x) (takeShotTargetY cfg rc rs - p.y)) ≠ 0) :
    ((takeShotVel cfg p (takeShotTargetY cfg rc rs) sqrtQ).x ^ 2 +
      (takeShotVel cfg p (takeShotTargetY cfg rc rs) sqrtQ).y ^ 2 = cfg.shotSpeed ^ 2) ∧
    (cfg.aiIntelligence > 0.5 →
      takeShotTargetY cfg rc rs =
        (GOAL_TOP + GOAL_BOTTOM) / 2 +
          ((if rc > 0.5 then GOAL_TOP + 15 else GOAL_BOTTOM - 15) -
            (GOAL_TOP + GOAL_BOTTOM) / 2) * cfg.aiIntelligence) ∧
    (¬ cfg.aiIntelligence > 0.5 →
      takeShotTargetY cfg rc rs = (GOAL_TOP + GOAL_BOTTOM) / 2 + (rs * 100 - 50)) := by
  refine ⟨?_, ?_, ?_⟩
  · unfold takeShotVel
    dsimp only
    set dx := GOAL_X - p.x with hdx
    set dy := takeShotTargetY cfg rc rs - p.y with hdy
    set d := sqrtQ (distSq dx dy) with hd
    have key : dx ^ 2 + dy ^ 2 = d ^ 2 := by
      unfold distSq at hsq
      nlinarith [hsq]
    field_simp
    linear_combination cfg.shotSpeed ^ 2 * key
  · intro hai
    unfold takeShotTargetY
    rw [if_pos hai]
  · intro hai
    unfold takeShotTargetY
    rw [if_neg hai]

/-- Witness for C3 at round 10 (intelligence 1), puck at (37, 181), corner draw
1 choosing the top post, so the target is (40, 185), the offset is (3, 4) with
length 5, and the released speed is the round's shot speed 20. -/
theorem C3_release_velocity_witness :
    ((takeShotVel (roundConfig 10) ⟨37, 181⟩ (takeShotTargetY (roundConfig 10) 1 0) sqrtAt25).x ^ 2 +
      (takeShotVel (roundConfig 10) ⟨37, 181⟩ (takeShotTargetY (roundConfig 10) 1 0) sqrtAt25).y ^ 2 =
      (roundConfig 10).shotSpeed ^ 2) :=
  (C3_release_velocity (roundConfig 10) ⟨37, 181⟩ 1 0 sqrtAt25
      (by norm_num [sqrtAt25, takeShotTargetY, roundConfig, distSq, GOAL_X, GOAL_TOP, GOAL_BOTTOM])
      (by norm_num [sqrtAt25, takeShotTargetY, roundConfig, distSq, GOAL_X, GOAL_TOP, GOAL_BOTTOM])).1

/-- C6 counterexample: a slap-shot round in mid wind-up, 600 ms after the
wind-up started, where the fresh threshold draw is 0 so the shoot threshold is
250 while the shooter is frozen at x = 260: the frame performs no release even
though far more than 500 ms of wall-clock time have elapsed. -/
theorem C6_windup_counterexample :
    (roundConfig 4).isSlapShot = true ∧
    stWindUp.windUpStart = some 1000 ∧
    stWindUp.hasShot = false ∧
    inpLate.now - 1000 > 500 ∧
    (update (roundConfig 4) inpLate (fun _ => 0) stWindUp).1.hasShot = false := by
  refine ⟨rfl, rfl, rfl, by norm_num [inpLate], ?_⟩
  rw [update_fst_eq (roundConfig 4) inpLate (fun _ => 0) stWindUp rfl]
  have hgm : goalieMove (roundConfig 4) inpLate
      { stWindUp with frameCount := stWindUp.frameCount + 1,
                      stanceLerp := stanceStep stWindUp.stickPos stWindUp.stanceLerp } =
      { goaliePos := ⟨100, 300⟩, stickPos := StickPosition.STRAIGHT, stanceLerp := 0,
        shooterPos := ⟨260, 300⟩, puckPos := ⟨240, 300⟩, puckVel := ⟨0, 0⟩,
        puckTrail := [], hasShot := false, roundEnded := false,
        windUpStart := some 1000, isDragging := false, frameCount := 11 } := by
    norm_num [goalieMove, stWindUp, inpLate, clampQ, roundConfig, CANVAS_HEIGHT,
      min_def, max_def, stanceStep, stanceTarget]
    decide
  dsimp only
  rw [hgm]
  rw [if_neg (by norm_num)]
  unfold shooterPhase
  rw [if_neg (show ¬((some (1000 : ℚ)) = none) from Option.some_ne_none 1000)]
  dsimp only [inpLate]
  rw [if_neg (show ¬((260 : ℚ) < 250 + 0 * 100) by norm_num)]

/-- C6 (amended): while a slap-shot wind-up is pending, the frame step never
moves the shooter; the shot is released in a frame exactly when the shooter x
is below that frame's freshly drawn threshold 250 + rand * 100 AND strictly
more than 500 ms of wall-clock time have elapsed since the wind-up started —
elapsed time alone does not force the release. -/
theorem C6_windup_release (cfg : RoundConfig) (inp : FrameInput) (sqrtQ : ℚ → ℚ)
    (st : GameState) (t0 : ℚ)
    (hend : st.roundEnded = false) (hshot : st.hasShot = false)
    (hw : st.windUpStart = some t0) (hslap : cfg.isSlapShot = true) :
    (update cfg inp sqrtQ st).1.shooterPos = st.shooterPos ∧
    ((update cfg inp sqrtQ st).1.hasShot = true ↔
      (st.shooterPos.x < 250 + inp.randThreshold * 100 ∧ inp.now - t0 > 500)) := by
  rw [update_fst_eq cfg inp sqrtQ st hend]
  have hgf := goalieMove_fields cfg inp
    { st with frameCount := st.frameCount + 1,
              stanceLerp := stanceStep st.stickPos st.stanceLerp }
  set s := goalieMove cfg inp
    { st with frameCount := st.frameCount + 1,
              stanceLerp := stanceStep st.stickPos st.stanceLerp } with hsdef
  have hsShot : s.hasShot = false := by
    rw [hgf.2.2.2.2.2.2.1]; exact hshot
  have hsWind : s.windUpStart = some t0 := by
    rw [hgf.2.2.2.2.2.2.2.2]; exact hw
  have hsPos : s.shooterPos = st.shooterPos := by
    rw [hgf.2.2.1]
  dsimp only
  rw [if_neg (by simp [hsShot])]
  unfold shooterPhase takeShot
  dsimp only
  simp only [apply_ite GameState.shooterPos, apply_ite GameState.hasShot,
    apply_ite GameState.windUpStart, apply_ite Vec.x, apply_ite Vec.y,
    hsWind, hsPos, hsShot, hslap]
  simp only [Option.getD_some, reduceCtorEq, if_false, ite_false, ite_true, ne_eq,
    not_false_iff, true_and, and_true, if_true, Option.some.injEq]
  constructor
  · split_ifs <;> rfl
  · split_ifs with h1 h2 <;> simp_all

/-- Witness for C6: same wind-up state, but the threshold draw is 1/2, so the
threshold is 300 > 260 and the 600 ms wind-up releases the shot. -/
theorem C6_windup_release_witness :
    (update (roundConfig 4)
        { inpLate with randThreshold := 1/2 } (fun _ => 0) stWindUp).1.hasShot = true :=
  (C6_windup_release (roundConfig 4) { inpLate with randThreshold := 1/2 } (fun _ => 0)
      stWindUp 1000 rfl rfl rfl rfl).2.mpr
    ⟨by norm_num [stWindUp, inpLate], by norm_num [inpLate]⟩

/-- C1 (code bug): with the puck at (44, -10) on an unresolved round, one
single invocation of the frame step reports two outcomes: the goal-line branch
reports a miss and, because that branch does not return, the out-of-bounds
branch then reports a second miss.  onRoundEnd is therefore invoked twice in
one frame for one round. -/
theorem C1_double_report :
    stGoalLine.roundEnded = false ∧
    (update (roundConfig 1) inpZero (fun _ => 0) stGoalLine).2 =
      [Outcome.save SaveType.miss, Outcome.save SaveType.miss] := by
  refine ⟨rfl, ?_⟩
  norm_num [update, stGoalLine, inpZero, roundConfig, physicsPhase, applyMagnet,
    goalieMove, resolveOutcomes, inBodyZone, inStickZone, inGloveZone, inButterflyZone,
    distSq, stickYOffset, stanceStep, stanceTarget, clampQ, GOAL_X, GOAL_TOP, GOAL_BOTTOM,
    CANVAS_HEIGHT, GOALIE_RADIUS, PUCK_RADIUS]

end Goalie
